import Mathlib

/-!
Verification of the bilive plugin core (shallow embedding).

This file embeds the core data model and operations of the repository
(`src/core/live_danmaku.py`, `src/core/room_monitor.py`,
`src/storage/stats_db.py`) as executable Lean definitions and proves or
refutes the specification claims about them.

Modelling conventions:
* Byte strings are `List Nat` (each entry a byte value `< 256` where the
  encoders are concerned); big-endian packing mirrors `struct.pack`.
* Python `dict`/`defaultdict` become association lists with explicit
  `bump` (additive upsert) / `pushTo` (append to list-valued entry).
* Monetary values (`float` in the source) are modelled as `ℚ`; the
  1-decimal formatting `float(f"{x:.1f}")` becomes rounding of `10*x`
  to the nearest integer.  At every concrete input used below the binary
  floating-point result and the exact rational result coincide.
* `async` code becomes either a pure state-passing function (single
  invocation) or an explicit interleaving/step relation (concurrency),
  with atomic segments delimited exactly by `await` suspension points.
* zlib/brotli decompression is an oracle `List Nat → Option (List Nat)`
  (`none` models a raised decompression error).
-/

namespace Bilive

/-! ## Byte-level helpers (struct.pack / struct.unpack ">IHHII") -/

/-- Value of two big-endian bytes (`struct.unpack ">H"`). -/
def beVal2 (b0 b1 : Nat) : Nat := b0 * 256 + b1

/-- Value of four big-endian bytes (`struct.unpack ">I"`). -/
def beVal4 (b0 b1 b2 b3 : Nat) : Nat := ((b0 * 256 + b1) * 256 + b2) * 256 + b3

/-- Big-endian 2-byte encoding (`struct.pack ">H"`). -/
def u16be (n : Nat) : List Nat := [n / 256 % 256, n % 256]

/-- Big-endian 4-byte encoding (`struct.pack ">I"`). -/
def u32be (n : Nat) : List Nat :=
  [n / 16777216 % 256, n / 65536 % 256, n / 256 % 256, n % 256]

theorem beVal2_u16be (n : Nat) (h : n < 65536) :
    beVal2 (n / 256 % 256) (n % 256) = n := by
  unfold beVal2; omega

theorem beVal4_u32be (n : Nat) (h : n < 4294967296) :
    beVal4 (n / 16777216 % 256) (n / 65536 % 256) (n / 256 % 256) (n % 256) = n := by
  unfold beVal4; omega

/-! ## Wire frames (`LiveDanmaku._send_packet` / `LiveDanmaku._parse_packet`) -/

/-- One wire-level frame, as read by the header-parsing loop of
`_parse_packet` (`struct.unpack(">IHHII", ...)` plus the body slice). -/
structure Frame where
  packetLen : Nat
  headerLen : Nat
  ver : Nat
  op : Nat
  seq : Nat
  body : List Nat
deriving Repr, DecidableEq

/-- Events dispatched by `_parse_packet` / `_parse_message`.  A `message`
event stands for the body handed to `_parse_message` (JSON decoding and
`cmd` dispatch are downstream of the codec and not needed by the claims). -/
inductive Ev where
  | verify
  | popularity (n : Nat)
  | message (body : List Nat)
deriving Repr, DecidableEq

/-- Errors that abort `_parse_packet`: a `struct.error` from unpacking a
short header, a zlib/brotli decompression error, or exhaustion of the
execution budget (modelling the Python recursion limit together with the
non-terminating `while` loop reachable when `packet_len = 0`). -/
inductive PErr where
  | headerError
  | zlibError
  | brotliError
  | budget
deriving Repr, DecidableEq

/-- Result of `_parse_packet` on one buffer: the frames split off by the
header loop (in processing order, nested decompressed frames included),
the events dispatched, and the error that aborted parsing, if any.
Events dispatched before the error remain dispatched. -/
structure PRes where
  frames : List Frame
  events : List Ev
  err : Option PErr
deriving Repr, DecidableEq

/-- `struct.unpack(">IHHII", data[offset:offset+16])`: succeeds exactly
when 16 bytes are available, otherwise `struct.error`. -/
def parseHeader : List Nat → Option (Nat × Nat × Nat × Nat × Nat)
  | a0 :: a1 :: a2 :: a3 :: b0 :: b1 :: c0 :: c1 ::
    d0 :: d1 :: d2 :: d3 :: e0 :: e1 :: e2 :: e3 :: _ =>
      some (beVal4 a0 a1 a2 a3, beVal2 b0 b1, beVal2 c0 c1,
            beVal4 d0 d1 d2 d3, beVal4 e0 e1 e2 e3)
  | _ => none

/-- `LiveDanmaku._parse_packet` (src/core/live_danmaku.py:275-309).

Faithful points: the body slice is `data[offset+header_len : offset+packet_len]`
with Python clamping semantics (a declared length beyond the buffer end
silently yields a shorter body); operations CONNECT_SUCCESS (8),
HEARTBEAT_REPLY (3, needs ≥ 4 body bytes) and MESSAGE (5) are handled,
everything else ignored; MESSAGE version 2/3 decompresses and re-invokes
the parser on the result; a decompression failure raises.  `fuel` bounds
the total number of loop iterations and recursive invocations — the
Python original has no such bound other than the interpreter recursion
limit (and loops forever when `packet_len = 0`), which `PErr.budget`
stands for. -/
def parsePacket (zl br : List Nat → Option (List Nat)) : Nat → List Nat → PRes
  | 0, _ => ⟨[], [], some .budget⟩
  | Nat.succ _, [] => ⟨[], [], none⟩
  | Nat.succ fuel, b :: bs =>
    match parseHeader (b :: bs) with
    | none => ⟨[], [], some .headerError⟩
    | some (packetLen, headerLen, ver, op, seq) =>
      let data := b :: bs
      let body := (data.drop headerLen).take (packetLen - headerLen)
      let fr : Frame := ⟨packetLen, headerLen, ver, op, seq, body⟩
      let inner : PRes :=
        if op = 8 then ⟨[], [.verify], none⟩
        else if op = 3 then
          if 4 ≤ body.length then
            ⟨[], [.popularity (beVal4 (body.getD 0 0) (body.getD 1 0) (body.getD 2 0) (body.getD 3 0))], none⟩
          else ⟨[], [], none⟩
        else if op = 5 then
          if ver = 0 ∨ ver = 1 then ⟨[], [.message body], none⟩
          else if ver = 2 then
            match zl body with
            | none => ⟨[], [], some .zlibError⟩
            | some d => parsePacket zl br fuel d
          else if ver = 3 then
            match br body with
            | none => ⟨[], [], some .brotliError⟩
            | some d => parsePacket zl br fuel d
          else ⟨[], [], none⟩
        else ⟨[], [], none⟩
      match inner.err with
      | some e => ⟨fr :: inner.frames, inner.events, some e⟩
      | none =>
        let rest := parsePacket zl br fuel (data.drop packetLen)
        ⟨fr :: inner.frames ++ rest.frames, inner.events ++ rest.events, rest.err⟩

/-- `LiveDanmaku._send_packet` (src/core/live_danmaku.py:214-221):
`struct.pack(">IHHII", len(body)+16, 16, 1, operation.value, 1) + body`. -/
def sendPacket (op : Nat) (body : List Nat) : List Nat :=
  u32be (body.length + 16) ++ u16be 16 ++ u16be 1 ++ u32be op ++ u32be 1 ++ body

/-- The receive loop's treatment of successive binary websocket messages
(src/core/live_danmaku.py:237-273): each buffer is handed to
`_parse_packet`; an exception escaping `_parse_packet` propagates out of
the `async for`, is caught by the surrounding `except`, and ends the loop
(the `finally` block then reconnects when the state was Authenticated).
The boolean result records whether the loop survived all segments
(`true`) or terminated early on a parse error (`false`); events of
segments after an erroring one are never dispatched. -/
def receiveLoop (zl br : List Nat → Option (List Nat)) (fuel : Nat) :
    List (List Nat) → List Ev × Bool
  | [] => ([], true)
  | seg :: rest =>
    let r := parsePacket zl br fuel seg
    match r.err with
    | some _ => (r.events, false)
    | none =>
      let (evs2, ok) := receiveLoop zl br fuel rest
      (r.events ++ evs2, ok)

/-- Dropping the 16 header bytes of an explicitly given frame. -/
theorem drop16_cons (a0 a1 a2 a3 a4 a5 a6 a7 a8 a9 a10 a11 a12 a13 a14 a15 : Nat)
    (t : List Nat) :
    List.drop 16 (a0 :: a1 :: a2 :: a3 :: a4 :: a5 :: a6 :: a7 :: a8 :: a9 :: a10 ::
      a11 :: a12 :: a13 :: a14 :: a15 :: t) = t := rfl

/-- C5: for every operation code and payload (within the u32 ranges
`struct.pack` accepts), `_send_packet` produces a frame whose 16-byte
big-endian header is (total length = header+body, header length 16,
protocol version 1, the operation code, sequence 1), and `_parse_packet`
on the encoded bytes splits off exactly one frame whose operation code
and body match the encoded operation code and payload. -/
theorem c5_roundtrip (zl br : List Nat → Option (List Nat)) (fuel op : Nat)
    (payload : List Nat) (hop : op < 4294967296)
    (hlen : payload.length + 16 < 4294967296) :
    (parsePacket zl br (fuel + 2) (sendPacket op payload)).frames =
      [⟨payload.length + 16, 16, 1, op, 1, payload⟩] ∧
    (parsePacket zl br (fuel + 2) (sendPacket op payload)).err = none := by
  have hsend : sendPacket op payload =
      (payload.length + 16) / 16777216 % 256 :: (payload.length + 16) / 65536 % 256 ::
      (payload.length + 16) / 256 % 256 :: (payload.length + 16) % 256 ::
      0 :: 16 :: 0 :: 1 ::
      op / 16777216 % 256 :: op / 65536 % 256 :: op / 256 % 256 :: op % 256 ::
      0 :: 0 :: 0 :: 1 :: payload := by
    simp [sendPacket, u32be, u16be]
  rw [hsend]
  rw [show fuel + 2 = Nat.succ (fuel + 1) from rfl]
  rw [parsePacket]
  simp only [parseHeader]
  rw [beVal4_u32be (payload.length + 16) hlen, beVal4_u32be op hop]
  have h16 : beVal2 0 16 = 16 := by norm_num [beVal2]
  have h1 : beVal2 0 1 = 1 := by norm_num [beVal2]
  have hseq : beVal4 0 0 0 1 = 1 := by norm_num [beVal4]
  rw [h16, h1, hseq]
  simp only [drop16_cons, Nat.add_sub_cancel, List.take_length]
  have hnil : parsePacket zl br (fuel + 1) ([] : List Nat) = ⟨[], [], none⟩ := rfl
  rw [show payload.length + 16 = 16 + payload.length from Nat.add_comm _ _,
    ← List.drop_drop]
  simp only [drop16_cons, List.drop_length, hnil]
  by_cases h8 : op = 8 <;> by_cases h3 : op = 3 <;> by_cases h5 : op = 5 <;>
    by_cases hp : 4 ≤ payload.length <;>
      simp [h8, h3, h5, hp]

/-! ## Nested compressed frames (claim C3 input family)

The platform wraps MESSAGE frames in zlib (version 2) or Brotli
(version 3) envelopes; `_parse_packet` re-invokes itself on the
decompressed bytes.  To exercise that recursion we build a family of
inputs `nest d`: `nest 0` is a plain version-1 MESSAGE frame carrying
`innerMsg`, and `nest (d+1)` is a version-2 MESSAGE frame whose
compressed body is the single token byte `d+1`, which the zlib oracle
expands to `nest d`. -/

/-- A server-style frame with the given operation, version and body
(same 16-byte big-endian header layout as `_send_packet`). -/
def frameBytes (op ver : Nat) (body : List Nat) : List Nat :=
  u32be (body.length + 16) ++ u16be 16 ++ u16be ver ++ u32be op ++ u32be 1 ++ body

/-- The innermost plain JSON message body (`{"cmd":"X"}` as UTF-8). -/
def innerMsg : List Nat := [123, 34, 99, 109, 100, 34, 58, 34, 88, 34, 125]

/-- Input nested to compression depth `d` (see section comment). -/
def nest : Nat → List Nat
  | 0 => frameBytes 5 1 innerMsg
  | d + 1 => frameBytes 5 2 [d + 1]

/-- zlib-decompression oracle for the `nest` family: token byte `k+1`
decompresses to `nest k`; everything else fails to decompress. -/
def zlOracle : List Nat → Option (List Nat)
  | [Nat.succ k] => some (nest k)
  | _ => none

/-- Brotli oracle: never invoked by the `nest` family. -/
def brOracle : List Nat → Option (List Nat) := fun _ => none

theorem parse_nest (d : Nat) : ∀ fuel, d + 2 ≤ fuel →
    (parsePacket zlOracle brOracle fuel (nest d)).events = [.message innerMsg] ∧
    (parsePacket zlOracle brOracle fuel (nest d)).err = none := by
  induction d with
  | zero =>
    intro fuel hf
    obtain ⟨f, rfl⟩ : ∃ f, fuel = f + 2 := ⟨fuel - 2, by omega⟩
    have hnil : parsePacket zlOracle brOracle (f + 1) ([] : List Nat) = ⟨[], [], none⟩ := rfl
    rw [show f + 2 = Nat.succ (f + 1) from rfl]
    simp [parsePacket, parseHeader, nest, frameBytes, u32be, u16be, innerMsg, beVal2, beVal4, hnil]
  | succ d ih =>
    intro fuel hf
    obtain ⟨f, rfl⟩ : ∃ f, fuel = f + 1 := ⟨fuel - 1, by omega⟩
    obtain ⟨g, rfl⟩ : ∃ g, f = g + 1 := ⟨f - 1, by omega⟩
    have hstep : nest (d + 1) =
        0 :: 0 :: 0 :: 17 :: 0 :: 16 :: 0 :: 2 :: 0 :: 0 :: 0 :: 5 ::
        0 :: 0 :: 0 :: 1 :: (d + 1) :: [] := by
      norm_num [nest, frameBytes, u32be, u16be]
    have hz : zlOracle [d + 1] = some (nest d) := rfl
    have hnil : parsePacket zlOracle brOracle (g + 1) ([] : List Nat) = ⟨[], [], none⟩ := rfl
    obtain ⟨ihe, ihr⟩ := ih (g + 1) (by omega)
    rw [hstep, show g + 1 + 1 = Nat.succ (g + 1) from rfl, parsePacket]
    simp only [parseHeader]
    norm_num [beVal2, beVal4]
    simp [hz, ihe, ihr, hnil]

/-! ## Truncated frames (claim C2) -/

/-- `struct.unpack` on fewer than 16 remaining bytes raises. -/
theorem parseHeader_short (data : List Nat) (h : data.length < 16) :
    parseHeader data = none := by
  rw [parseHeader.eq_def]
  split
  · rename_i a0 a1 a2 a3 b0 b1 c0 c1 d0 d1 d2 d3 e0 e1 e2 e3 t
    simp at h
    omega
  · rfl

/-- A buffer whose remaining bytes cannot hold a 16-byte header makes
`_parse_packet` raise `struct.error` (modelled as `headerError`). -/
theorem parsePacket_short_header (zl br : List Nat → Option (List Nat)) (fuel : Nat)
    (b : Nat) (bs : List Nat) (h : (b :: bs).length < 16) :
    (parsePacket zl br (fuel + 1) (b :: bs)).err = some .headerError := by
  rw [show fuel + 1 = Nat.succ fuel from rfl, parsePacket, parseHeader_short _ h]

/-- A 20-byte buffer whose single frame declares a total length of 100:
the declared length exceeds the available bytes, i.e. the trailing frame
is truncated (src slices `data[offset+header_len:offset+packet_len]`,
which clamps). -/
def truncatedFrame : List Nat :=
  [0, 0, 0, 100, 0, 16, 0, 1, 0, 0, 0, 5, 0, 0, 0, 1, 65, 66, 67, 68]

/-- If `_parse_packet` raises on a websocket message, the receive loop's
`except` handler ends the `async for` loop: the remaining already-queued
segments are never parsed and the loop reports failure instead of
continuing. -/
theorem receiveLoop_stops_on_error (zl br : List Nat → Option (List Nat))
    (fuel : Nat) (seg : List Nat) (rest : List (List Nat)) (e : PErr)
    (h : (parsePacket zl br fuel seg).err = some e) :
    receiveLoop zl br fuel (seg :: rest) = ((parsePacket zl br fuel seg).events, false) := by
  rw [receiveLoop]
  simp only [h]

/-! ## Association-list maps (Python `dict` / `defaultdict`) -/

/-- `m[k] += v` on a `defaultdict` whose default is `z` (`0` / `0.0` /
empty): additive upsert. -/
def bump {κ α : Type} [DecidableEq κ] [Add α] (z : α) :
    List (κ × α) → κ → α → List (κ × α)
  | [], k, v => [(k, z + v)]
  | (kk, a) :: rest, k, v =>
    if k = kk then (kk, a + v) :: rest else (kk, a) :: bump z rest k v

/-- `m[k]` with default `d` (`dict.get(k, d)` / `defaultdict` read). -/
def lookupD {κ α : Type} [DecidableEq κ] : List (κ × α) → κ → α → α
  | [], _, d => d
  | (kk, a) :: rest, k, d => if k = kk then a else lookupD rest k d

/-- `m[k].append(x)` on a `defaultdict(list)`. -/
def pushTo {κ α : Type} [DecidableEq κ] :
    List (κ × List α) → κ → α → List (κ × List α)
  | [], k, x => [(k, [x])]
  | (kk, l) :: rest, k, x =>
    if k = kk then (kk, l ++ [x]) :: rest else (kk, l) :: pushTo rest k x

theorem lookupD_bump_self {κ α : Type} [DecidableEq κ] [AddZeroClass α]
    (m : List (κ × α)) (k : κ) (v : α) :
    lookupD (bump 0 m k v) k 0 = lookupD m k 0 + v := by
  induction m with
  | nil => simp [bump, lookupD]
  | cons p rest ih =>
    obtain ⟨kk, a⟩ := p
    by_cases h : k = kk <;> simp [bump, lookupD, h, ih]

theorem lookupD_bump_other {κ α : Type} [DecidableEq κ] [Add α]
    (z : α) (m : List (κ × α)) (k k2 : κ) (v d : α) (h : k ≠ k2) :
    lookupD (bump z m k2 v) k d = lookupD m k d := by
  induction m with
  | nil => simp [bump, lookupD, h]
  | cons p rest ih =>
    obtain ⟨kk, a⟩ := p
    by_cases h2 : k2 = kk
    · subst h2
      simp [bump, lookupD, h]
    · by_cases h3 : k = kk <;> simp [bump, lookupD, h2, h3, ih]

theorem lookupD_pushTo_self {κ α : Type} [DecidableEq κ]
    (m : List (κ × List α)) (k : κ) (x : α) :
    lookupD (pushTo m k x) k [] = lookupD m k [] ++ [x] := by
  induction m with
  | nil => simp [pushTo, lookupD]
  | cons p rest ih =>
    obtain ⟨kk, l⟩ := p
    by_cases h : k = kk <;> simp [pushTo, lookupD, h, ih]

theorem lookupD_pushTo_other {κ α : Type} [DecidableEq κ]
    (m : List (κ × List α)) (k k2 : κ) (x : α) (d : List α) (h : k ≠ k2) :
    lookupD (pushTo m k2 x) k d = lookupD m k d := by
  induction m with
  | nil => simp [pushTo, lookupD, h]
  | cons p rest ih =>
    obtain ⟨kk, l⟩ := p
    by_cases h2 : k2 = kk
    · subst h2
      simp [pushTo, lookupD, h]
    · by_cases h3 : k = kk <;> simp [pushTo, lookupD, h2, h3, ih]

/-! ## StatsBuffer (src/storage/stats_db.py:15-152)

The in-memory mutation-coalescing aggregator.  Python `defaultdict(int)`
/ `defaultdict(float)` counters become additive-upsert association
lists; `defaultdict(list)` series become list-valued entries.  The
`time.time()` calls inside the `incr_*` methods become an explicit `now`
argument. -/

structure StatsBuffer where
  room_danmu_count : List (Nat × Nat) := []
  room_gift_profit : List (Nat × ℚ) := []
  room_sc_profit : List (Nat × Int) := []
  room_box_count : List (Nat × Nat) := []
  room_box_profit : List (Nat × ℚ) := []
  room_guard_count : List ((Nat × String) × Nat) := []
  user_danmu_count : List ((Nat × Nat) × Nat) := []
  user_gift_profit : List ((Nat × Nat) × ℚ) := []
  user_sc_profit : List ((Nat × Nat) × Int) := []
  user_box_count : List ((Nat × Nat) × Nat) := []
  user_box_profit : List ((Nat × Nat) × ℚ) := []
  user_guard_count : List ((Nat × Nat × String) × Nat) := []
  room_danmu_texts : List (Nat × List String) := []
  room_danmu_times : List (Nat × List (Nat × Nat)) := []
  room_gift_times : List (Nat × List (Nat × ℚ)) := []
  room_sc_times : List (Nat × List (Nat × Int)) := []
  room_box_times : List (Nat × List (Nat × Nat)) := []
  room_guard_times : List (Nat × List (Nat × Nat)) := []
  room_box_profit_records : List (Nat × List ℚ) := []
deriving Repr, DecidableEq

/-- A fresh buffer; also the result of `StatsBuffer._clear()`. -/
def emptyBuffer : StatsBuffer := {}

/-- `StatsBuffer.incr_danmu` (stats_db.py:117-123). -/
def incr_danmu (b : StatsBuffer) (room uid : Nat) (content : String) (now : Nat) :
    StatsBuffer :=
  let b1 := { b with room_danmu_count := bump 0 b.room_danmu_count room 1 }
  let b2 := if uid ≠ 0 then
      { b1 with user_danmu_count := bump 0 b1.user_danmu_count (room, uid) 1 }
    else b1
  let b3 := { b2 with room_danmu_texts := pushTo b2.room_danmu_texts room content }
  { b3 with room_danmu_times := pushTo b3.room_danmu_times room (now, 1) }

/-- `StatsBuffer.incr_gift` (stats_db.py:125-129). -/
def incr_gift (b : StatsBuffer) (room uid : Nat) (profit : ℚ) (now : Nat) :
    StatsBuffer :=
  { b with
    room_gift_profit := bump 0 b.room_gift_profit room profit
    user_gift_profit := bump 0 b.user_gift_profit (room, uid) profit
    room_gift_times := pushTo b.room_gift_times room (now, profit) }

/-- `StatsBuffer.incr_sc` (stats_db.py:131-135). -/
def incr_sc (b : StatsBuffer) (room uid : Nat) (price : Int) (now : Nat) :
    StatsBuffer :=
  { b with
    room_sc_profit := bump 0 b.room_sc_profit room price
    user_sc_profit := bump 0 b.user_sc_profit (room, uid) price
    room_sc_times := pushTo b.room_sc_times room (now, price) }

/-- `StatsBuffer.incr_box` (stats_db.py:137-146).  After the four
additive updates the method appends the *new* cumulative
`room_box_profit[room]` to `room_box_profit_records[room]`. -/
def incr_box (b : StatsBuffer) (room uid count : Nat) (profit : ℚ) (now : Nat) :
    StatsBuffer :=
  let b1 := { b with
    room_box_count := bump 0 b.room_box_count room count
    user_box_count := bump 0 b.user_box_count (room, uid) count
    room_box_profit := bump 0 b.room_box_profit room profit
    user_box_profit := bump 0 b.user_box_profit (room, uid) profit
    room_box_times := pushTo b.room_box_times room (now, count) }
  let currentTotal := lookupD b1.room_box_profit room 0
  { b1 with room_box_profit_records := pushTo b1.room_box_profit_records room currentTotal }

/-- `StatsBuffer.incr_guard` (stats_db.py:148-152). -/
def incr_guard (b : StatsBuffer) (room uid : Nat) (guardType : String) (months : Nat)
    (now : Nat) : StatsBuffer :=
  { b with
    room_guard_count := bump 0 b.room_guard_count (room, guardType) months
    user_guard_count := bump 0 b.user_guard_count (room, uid, guardType) months
    room_guard_times := pushTo b.room_guard_times room (now, months) }

/-! ## StatsDB durable state and `flush_buffer` (stats_db.py:298-424)

The SQLite tables become per-column association lists (`INSERT ... ON
CONFLICT ... DO UPDATE SET col = col + excluded.col` is an additive
upsert; a fresh row's other columns default to zero, so per-column maps
are equivalent to the row-level table).  `room_stats`'s three guard
columns are keyed by `(room, guard_type)`. -/

structure StatsStore where
  room_danmu_count : List (Nat × Nat) := []
  room_gift_profit : List (Nat × ℚ) := []
  room_sc_profit : List (Nat × Int) := []
  room_box_count : List (Nat × Nat) := []
  room_box_profit : List (Nat × ℚ) := []
  room_guard_count : List ((Nat × String) × Nat) := []
  user_danmu : List ((Nat × Nat) × Nat) := []
  user_gift : List ((Nat × Nat) × ℚ) := []
  user_sc : List ((Nat × Nat) × Int) := []
  user_box : List ((Nat × Nat) × (Nat × ℚ)) := []
  user_guard : List ((Nat × Nat × String) × Nat) := []
  danmu_texts : List (Nat × String × Nat) := []
  time_stats : List (Nat × String × Nat × ℚ) := []
  box_profit_records : List (Nat × ℚ) := []
deriving Repr, DecidableEq

def emptyStore : StatsStore := {}

/-- Iterated additive upsert of every `(key, delta)` of `src` into `st`. -/
def upsertFold {κ α : Type} [DecidableEq κ] [Add α] (z : α)
    (st src : List (κ × α)) : List (κ × α) :=
  src.foldl (fun acc p => bump z acc p.1 p.2) st

/-- `StatsDB.flush_buffer` (stats_db.py:298-424): every buffered counter
is committed as an additive upsert, text samples and time series are
bulk-appended (`now` models the single `int(time.time())` taken for the
text rows), and the buffer's `user_box_profit` is joined to
`user_box_count` by key with default 0, as in the source. -/
def flushBuffer (db : StatsStore) (b : StatsBuffer) (now : Nat) : StatsStore :=
  { db with
    room_danmu_count := upsertFold 0 db.room_danmu_count b.room_danmu_count
    room_gift_profit := upsertFold 0 db.room_gift_profit b.room_gift_profit
    room_sc_profit := upsertFold 0 db.room_sc_profit b.room_sc_profit
    room_box_count := upsertFold 0 db.room_box_count b.room_box_count
    room_box_profit := upsertFold 0 db.room_box_profit b.room_box_profit
    room_guard_count := upsertFold 0 db.room_guard_count b.room_guard_count
    user_danmu := upsertFold 0 db.user_danmu b.user_danmu_count
    user_gift := upsertFold 0 db.user_gift b.user_gift_profit
    user_sc := upsertFold 0 db.user_sc b.user_sc_profit
    user_box := upsertFold (0, 0) db.user_box
      (b.user_box_count.map (fun p => (p.1, (p.2, lookupD b.user_box_profit p.1 0))))
    user_guard := upsertFold 0 db.user_guard b.user_guard_count
    danmu_texts := b.room_danmu_texts.foldl
      (fun acc p => acc ++ p.2.map (fun t => (p.1, t, now))) db.danmu_texts
    time_stats :=
      let t1 := b.room_danmu_times.foldl
        (fun acc p => acc ++ p.2.map (fun tv => (p.1, "danmu", tv.1, (tv.2 : ℚ)))) db.time_stats
      let t2 := b.room_gift_times.foldl
        (fun acc p => acc ++ p.2.map (fun tv => (p.1, "gift", tv.1, tv.2))) t1
      let t3 := b.room_sc_times.foldl
        (fun acc p => acc ++ p.2.map (fun tv => (p.1, "sc", tv.1, (tv.2 : ℚ)))) t2
      let t4 := b.room_box_times.foldl
        (fun acc p => acc ++ p.2.map (fun tv => (p.1, "box", tv.1, (tv.2 : ℚ)))) t3
      b.room_guard_times.foldl
        (fun acc p => acc ++ p.2.map (fun tv => (p.1, "guard", tv.1, (tv.2 : ℚ)))) t4
    box_profit_records := b.room_box_profit_records.foldl
      (fun acc p => acc ++ p.2.map (fun q => (p.1, q))) db.box_profit_records }

/-- `StatsBuffer.flush` (stats_db.py:85-91) as observed when no other
task interleaves: commit everything, then `_clear()`.  The concurrent
behaviour of `flush` is modelled separately for claim C1. -/
def flushSerial (db : StatsStore) (b : StatsBuffer) (now : Nat) :
    StatsStore × StatsBuffer :=
  (flushBuffer db b now, emptyBuffer)

/-! ## Summation views used by claim C8 -/

/-- Total of all values recorded under key `k` (duplicate keys summed). -/
def sumKey {κ : Type} [DecidableEq κ] : List (κ × Nat) → κ → Nat
  | [], _ => 0
  | (kk, v) :: rest, k => (if kk = k then v else 0) + sumKey rest k

/-- Total of all per-user values recorded for room `r`. -/
def sumRoomPairs : List ((Nat × Nat) × Nat) → Nat → Nat
  | [], _ => 0
  | (k, v) :: rest, r => (if k.1 = r then v else 0) + sumRoomPairs rest r

theorem sumKey_bump_self {κ : Type} [DecidableEq κ]
    (m : List (κ × Nat)) (k : κ) (v : Nat) :
    sumKey (bump 0 m k v) k = sumKey m k + v := by
  induction m with
  | nil => simp [bump, sumKey]
  | cons p rest ih =>
    obtain ⟨kk, a⟩ := p
    by_cases h : k = kk
    · subst h
      simp [bump, sumKey]
      omega
    · simp [bump, sumKey, h, Ne.symm h, ih]

theorem sumRoomPairs_bump (m : List ((Nat × Nat) × Nat)) (r u : Nat) (v : Nat) :
    sumRoomPairs (bump 0 m (r, u) v) r = sumRoomPairs m r + v := by
  induction m with
  | nil => simp [bump, sumRoomPairs]
  | cons p rest ih =>
    obtain ⟨⟨r2, u2⟩, a⟩ := p
    by_cases h : (r, u) = (r2, u2)
    · obtain ⟨rfl, rfl⟩ := Prod.mk.injEq .. ▸ h
      simp [bump, sumRoomPairs]
      omega
    · simp only [bump, if_neg h, sumRoomPairs, ih]
      omega

theorem lookupD_upsertFold {κ : Type} [DecidableEq κ]
    (st src : List (κ × Nat)) (k : κ) :
    lookupD (upsertFold 0 st src) k 0 = lookupD st k 0 + sumKey src k := by
  induction src generalizing st with
  | nil => simp [upsertFold, sumKey]
  | cons p rest ih =>
    obtain ⟨kk, v⟩ := p
    show lookupD (upsertFold 0 (bump 0 st kk v) rest) k 0 = _
    rw [ih]
    by_cases h : kk = k
    · subst h
      rw [lookupD_bump_self]
      simp [sumKey]
      omega
    · rw [lookupD_bump_other 0 st k kk v 0 (Ne.symm h)]
      simp [sumKey, h]

theorem sumRoomPairs_upsertFold (st src : List ((Nat × Nat) × Nat)) (r : Nat) :
    sumRoomPairs (upsertFold 0 st src) r = sumRoomPairs st r + sumRoomPairs src r := by
  have hone : ∀ (st : List ((Nat × Nat) × Nat)) (k : Nat × Nat) (v : Nat),
      sumRoomPairs (bump 0 st k v) r =
        sumRoomPairs st r + (if k.1 = r then v else 0) := by
    intro st k v
    induction st with
    | nil => simp [bump, sumRoomPairs]
    | cons p rest ih =>
      obtain ⟨kk, a⟩ := p
      by_cases h : k = kk
      · subst h
        simp [bump, sumRoomPairs]
        split <;> omega
      · simp only [bump, if_neg h, sumRoomPairs, ih]
        omega
  induction src generalizing st with
  | nil => simp [upsertFold, sumRoomPairs]
  | cons p rest ih =>
    obtain ⟨kk, v⟩ := p
    show sumRoomPairs (upsertFold 0 (bump 0 st kk v) rest) r = _
    rw [ih, hone]
    simp [sumRoomPairs]
    omega

/-! ## Chat increments before a flush (claim C8) -/

/-- Issue a sequence of chat increments `(uid, content, timestamp)` for
room `r` to the buffer, in order. -/
def runDanmus (r : Nat) (evs : List (Nat × String × Nat)) (b : StatsBuffer) :
    StatsBuffer :=
  evs.foldl (fun acc e => incr_danmu acc r e.1 e.2.1 e.2.2) b

theorem runDanmus_room_count (r : Nat) (evs : List (Nat × String × Nat))
    (b : StatsBuffer) :
    sumKey (runDanmus r evs b).room_danmu_count r =
      sumKey b.room_danmu_count r + evs.length := by
  induction evs generalizing b with
  | nil => simp [runDanmus]
  | cons e rest ih =>
    show sumKey (runDanmus r rest (incr_danmu b r e.1 e.2.1 e.2.2)).room_danmu_count r = _
    rw [ih]
    have : (incr_danmu b r e.1 e.2.1 e.2.2).room_danmu_count =
        bump 0 b.room_danmu_count r 1 := by
      simp [incr_danmu]
      split <;> rfl
    rw [this, sumKey_bump_self]
    simp [List.length]
    omega

theorem runDanmus_user_sum (r : Nat) (evs : List (Nat × String × Nat))
    (b : StatsBuffer) :
    sumRoomPairs (runDanmus r evs b).user_danmu_count r =
      sumRoomPairs b.user_danmu_count r + (evs.filter (fun e => e.1 ≠ 0)).length := by
  induction evs generalizing b with
  | nil => simp [runDanmus]
  | cons e rest ih =>
    show sumRoomPairs (runDanmus r rest (incr_danmu b r e.1 e.2.1 e.2.2)).user_danmu_count r = _
    rw [ih]
    by_cases h : e.1 = 0
    · have : (incr_danmu b r e.1 e.2.1 e.2.2).user_danmu_count = b.user_danmu_count := by
        simp [incr_danmu, h]
      rw [this]
      simp [List.filter, h]
    · have : (incr_danmu b r e.1 e.2.1 e.2.2).user_danmu_count =
          bump 0 b.user_danmu_count (r, e.1) 1 := by
        simp [incr_danmu, h]
      rw [this, sumRoomPairs_bump]
      simp [List.filter, h]
      omega

/-! ## Gift handling (`RoomMonitor._handle_gift`, room_monitor.py:401-433) -/

/-- `float(f"{x:.1f}")`: round to one decimal place.  (Python formats the
binary double with banker's rounding; at every input appearing in this
file `10 * x` is an exact integer, where the two notions coincide.) -/
def round1 (x : ℚ) : ℚ := ((round (10 * x) : ℤ) : ℚ) / 10

/-- The fields of a `SEND_GIFT` payload read by `_handle_gift`.
`blind_gift` records whether the `blind_gift` key is present (not None). -/
structure GiftEvent where
  uid : Nat
  num : Nat
  discount_price : Nat
  total_coin : Nat
  giftId : Nat
  blind_gift : Bool
deriving Repr, DecidableEq

/-- Plain gift revenue: `float(f"{(discount_price / 1000) * num:.1f}")`,
then the lucky-key special case `profit * 0.01` for gift id 31709. -/
def giftProfit (e : GiftEvent) : ℚ :=
  let p := round1 ((e.discount_price : ℚ) / 1000 * e.num)
  if e.giftId = 31709 then p * (1 / 100) else p

/-- Blind-box profit: `float(f"{(gift_price * gift_num) - box_price:.1f}")`
with `gift_price = discount_price / 1000` and `box_price = total_coin / 1000`. -/
def boxProfitDelta (e : GiftEvent) : ℚ :=
  round1 ((e.discount_price : ℚ) / 1000 * e.num - (e.total_coin : ℚ) / 1000)

/-- `RoomMonitor._handle_gift`: the gift increment is issued only when
`total_coin != 0 and discount_price != 0`; the blind-box increment is
issued whenever the `blind_gift` key is present. -/
def handleGift (b : StatsBuffer) (room : Nat) (e : GiftEvent) (now : Nat) :
    StatsBuffer :=
  let b1 := if e.total_coin ≠ 0 ∧ e.discount_price ≠ 0 then
      incr_gift b room e.uid (giftProfit e) now
    else b
  if e.blind_gift then incr_box b1 room e.uid e.num (boxProfitDelta e) now else b1

/-- The blind-box event of claim C4: paid box price 500 (minor units),
revealed unit price 800, quantity 1. -/
def blindEvent (uid : Nat) : GiftEvent :=
  { uid := uid, num := 1, discount_price := 800, total_coin := 500,
    giftId := 0, blind_gift := true }

/-! ## Live-start handling (`RoomMonitor._handle_live_on`, room_monitor.py:218-331)

Sequential model of one invocation.  The `async with self._live_event_lock`
region is uncontended in a single invocation, so it contributes no state;
the concurrent two-invocation behaviour is modelled separately below for
claim C6.  The monitor's callback `_on_live_start` is assumed registered
(main.py wires it), so the non-suppressed path notifies once. -/

structure RoomState where
  isLive : Bool
  dbStatus : Int
  dbStartTime : Int
  dbEndTime : Int
  lastPushTime : Option Int
deriving Repr, DecidableEq

/-- Side effects of one `_handle_live_on` invocation. -/
structure LiveOnFx where
  creates : Nat
  notifies : Nat
  resets : Nat
deriving Repr, DecidableEq

def noFx : LiveOnFx := ⟨0, 0, 0⟩

/-- The reconnect-echo heuristic (room_monitor.py:249-256):
`last_end != 0 and now - last_end <= 60 and _last_live_push_time is not
None and now - _last_live_push_time <= 60` (RECONNECT_THRESHOLD = 60). -/
def isReconnectEcho (st : RoomState) (now : Int) : Bool :=
  decide (st.dbEndTime ≠ 0) && decide (now - st.dbEndTime ≤ 60) &&
  (match st.lastPushTime with
   | none => false
   | some p => decide (now - p ≤ 60))

/-- `RoomMonitor._handle_live_on`.  `liveTime` is `data.get("live_time")`
(`none` when the key is absent, in which case the code defaults to
`int(time.time())` = `now`); `roomInfoTime` is the parsed
`get_room_info_v2()["live_time"]` fallback used when `live_time == 0`
(`none` when unavailable, falling back to `now`). -/
def handleLiveOn (st : RoomState) (now : Int) (liveTime roomInfoTime : Option Int) :
    RoomState × LiveOnFx :=
  if st.isLive then (st, noFx)
  else if st.dbStatus = 1 then ({ st with isLive := true }, noFx)
  else
    let st1 := { st with isLive := true }
    if isReconnectEcho st1 now then
      ({ st1 with dbStatus := 1 }, noFx)
    else
      let startTime :=
        match liveTime with
        | some t =>
          if t = 0 then (match roomInfoTime with | some rt => rt | none => now) else t
        | none => now
      ({ st1 with dbStatus := 1, dbStartTime := startTime, lastPushTime := some now },
       { creates := 1, notifies := 1, resets := 1 })

theorem isReconnectEcho_iff (st : RoomState) (now : Int) :
    isReconnectEcho st now = true ↔
      (st.dbEndTime ≠ 0 ∧ now - st.dbEndTime ≤ 60 ∧
       ∃ p, st.lastPushTime = some p ∧ now - p ≤ 60) := by
  unfold isReconnectEcho
  cases h : st.lastPushTime with
  | none => simp [h]
  | some p => simp [h, and_assoc]

/-! ## Concurrent duplicate `LIVE` events (claim C6)

Two handler tasks run `_handle_live_on` concurrently under asyncio's
cooperative scheduler.  Atomic segments are delimited by the awaits:
`lock.acquire()` (suspends only when contended), `db.get_live_status`,
and `db.get_live_end_time` / the subsequent session-creation awaits.
The scenario is a fresh room (`db.get_live_status() = 0`,
`db.get_live_end_time() = 0`, so the echo heuristic is off), matching
two genuine duplicate `LIVE` deliveries within one second. -/

inductive LPc where
  | start        -- before the fast in-memory check
  | waitLock     -- suspended in lock.acquire()
  | awaitStat    -- holding the lock, suspended in db.get_live_status
  | afterLock    -- released the lock, in the session-start tail
  | done
deriving Repr, DecidableEq

structure DupState where
  isLive : Bool
  dbStatus : Nat
  lockBy : Option Bool
  pcA : LPc
  pcB : LPc
  creates : Nat
  notifies : Nat
deriving Repr, DecidableEq

def pcOf (s : DupState) (t : Bool) : LPc := if t then s.pcB else s.pcA

def setPcOf (s : DupState) (t : Bool) (pc : LPc) : DupState :=
  if t then { s with pcB := pc } else { s with pcA := pc }

/-- One atomic segment of task `t`, `none` when the task is blocked or
finished.  `.start`: fast `_is_live` check, then lock acquisition (and,
when uncontended, the in-lock re-check and the start of
`get_live_status`, with no intervening suspension).  `.waitLock`:
resumption from a contended acquire, in-lock re-check, then either early
return or `get_live_status`.  `.awaitStat`: `get_live_status` returned;
on 1 set the flag and return, else set the flag, leave the lock and call
`get_live_end_time`.  `.afterLock`: `last_end = 0` makes the echo check
false; the remaining awaits (status/start-time writes, stats reset,
`create_session`, callback) touch no state read by the other task's
checks and are lumped into one segment counting the two side effects. -/
def taskStep (s : DupState) (t : Bool) : Option DupState :=
  match pcOf s t with
  | .start =>
    if s.isLive then some (setPcOf s t .done)
    else
      match s.lockBy with
      | some _ => some (setPcOf s t .waitLock)
      | none => some (setPcOf { s with lockBy := some t } t .awaitStat)
  | .waitLock =>
    match s.lockBy with
    | some _ => none
    | none =>
      if s.isLive then some (setPcOf s t .done)
      else some (setPcOf { s with lockBy := some t } t .awaitStat)
  | .awaitStat =>
    if s.dbStatus = 1 then some (setPcOf { s with isLive := true, lockBy := none } t .done)
    else some (setPcOf { s with isLive := true, lockBy := none } t .afterLock)
  | .afterLock =>
    some (setPcOf
      { s with dbStatus := 1, creates := s.creates + 1, notifies := s.notifies + 1 }
      t .done)
  | .done => none

def succs (s : DupState) : List DupState :=
  (match taskStep s false with | some x => [x] | none => []) ++
  (match taskStep s true with | some x => [x] | none => [])

/-- All states reachable from `s` in which neither task can step,
explored exhaustively over every interleaving (`fuel` bounds the
recursion depth; 12 exceeds the longest schedule). -/
def finalsFrom : Nat → DupState → List DupState
  | 0, s => [s]
  | f + 1, s =>
    match succs s with
    | [] => [s]
    | ss => ss.flatMap (finalsFrom f)

def initDup : DupState :=
  { isLive := false, dbStatus := 0, lockBy := none,
    pcA := .start, pcB := .start, creates := 0, notifies := 0 }

/-! ## Flush vs. concurrent increments (claim C1)

`StatsBuffer.flush` (stats_db.py:85-91) runs
`await self._db.flush_buffer(self)` — which reads the *live* accumulation
dicts and suspends at every SQL await, last of all `conn.commit()` —
and only then calls `self._clear()`.  There is no swap: a single counter
suffices to exhibit the consequence.  `commitPhase` is the point where
`flush_buffer` has read the buffered value into the store; `clearPhase`
is `_clear()`.  Cooperative `incr` steps may interleave between the two
because `flush_buffer` suspends after reading the dicts (e.g. during
`conn.commit()`). -/

inductive FlushOp where
  | incr         -- StatsBuffer.incr_danmu(room, ...): buf += 1
  | commitPhase  -- flush_buffer reads the live dict and upserts: store += buf
  | clearPhase   -- StatsBuffer._clear(): buf := 0
deriving Repr, DecidableEq

structure FlushState where
  buf : Nat
  store : Nat
deriving Repr, DecidableEq

def flushStep (s : FlushState) : FlushOp → FlushState
  | .incr => { s with buf := s.buf + 1 }
  | .commitPhase => { s with store := s.store + s.buf }
  | .clearPhase => { s with buf := 0 }

def runFlushOps (s : FlushState) (ops : List FlushOp) : FlushState :=
  ops.foldl flushStep s

def incrCount (ops : List FlushOp) : Nat :=
  (ops.filter (fun o => o = FlushOp.incr)).length

/-- Modelled from the spec: the claimed discipline — `flush()` atomically
swaps the accumulation structures for fresh empty ones *before* any
store I/O (`swapPhase`), then commits the swapped-out snapshot
(`commitSnap`).  Increments arriving during the commit land in the new
structure and survive. -/
inductive SwapOp where
  | incr
  | swapPhase   -- snap := buf; buf := fresh empty
  | commitSnap  -- store += snap; snap discarded
deriving Repr, DecidableEq

structure SwapState where
  buf : Nat
  snap : Nat
  store : Nat
deriving Repr, DecidableEq

def swapStep (s : SwapState) : SwapOp → SwapState
  | .incr => { s with buf := s.buf + 1 }
  | .swapPhase => { s with snap := s.buf, buf := 0 }
  | .commitSnap => { s with store := s.store + s.snap, snap := 0 }

def runSwapOps (s : SwapState) (ops : List SwapOp) : SwapState :=
  ops.foldl swapStep s

/-- The schedule on which the code loses an increment: one increment
before the flush, then the flush's store commit, then an increment that
arrives while the commit awaits, then `_clear()`. -/
def lostSchedule : List FlushOp := [.incr, .commitPhase, .incr, .clearPhase]

/-- The same schedule under the spec's swap discipline. -/
def swapSchedule : List SwapOp := [.incr, .swapPhase, .incr, .commitSnap]

/-! ## Heartbeat loop (claim C9, `LiveDanmaku._heartbeat_loop`,
live_danmaku.py:223-235)

The task first awaits `self._auth_event` (set, together with
`self._status = 2`, only by the CONNECT_SUCCESS branch of
`_parse_packet`, lines 286-289 — one atomic segment), then loops:
check `self._status == 2`, send a heartbeat frame, sleep 30 seconds.
Environment steps cover every other write of `_status` in the source:
1 (`connect`), 3 (`disconnect`), 0 (idle / reconnect path).  The model
covers one client lifecycle from `__init__` (fresh unset event). -/

inductive HPc where
  | waiting   -- in `await self._auth_event.wait()`
  | check     -- about to evaluate `self._status == 2`
  | sleeping  -- in `await asyncio.sleep(30)` after a send
  | stopped   -- the while loop exited
deriving Repr, DecidableEq

structure HBState where
  pc : HPc
  authSet : Bool
  status : Nat
  sendLog : List (Bool × Nat)  -- (authSet, status) at each heartbeat send
deriving Repr, DecidableEq

inductive HBStep : HBState → HBState → Prop
  | toConnecting (s : HBState) : HBStep s { s with status := 1 }
  | authOk (s : HBState) : HBStep s { s with status := 2, authSet := true }
  | toDisconnecting (s : HBState) : HBStep s { s with status := 3 }
  | toIdle (s : HBState) : HBStep s { s with status := 0 }
  | wake (s : HBState) (h : s.pc = .waiting) (ha : s.authSet = true) :
      HBStep s { s with pc := .check }
  | checkSend (s : HBState) (h : s.pc = .check) (h2 : s.status = 2) :
      HBStep s { s with pc := .sleeping, sendLog := s.sendLog ++ [(s.authSet, s.status)] }
  | checkStop (s : HBState) (h : s.pc = .check) (h2 : s.status ≠ 2) :
      HBStep s { s with pc := .stopped }
  | sleepDone (s : HBState) (h : s.pc = .sleeping) : HBStep s { s with pc := .check }

def initHB : HBState := { pc := .waiting, authSet := false, status := 0, sendLog := [] }

inductive HBReach : HBState → Prop
  | init : HBReach initHB
  | step {s s2 : HBState} : HBReach s → HBStep s s2 → HBReach s2

theorem hb_invariant {s : HBState} (h : HBReach s) :
    (s.pc ≠ .waiting → s.authSet = true) ∧
    (s.sendLog.all fun e => decide (e.1 = true ∧ e.2 = 2)) = true := by
  induction h with
  | init => simp [initHB]
  | step hr hs ih =>
    cases hs with
    | toConnecting => exact ih
    | authOk => exact ⟨fun _ => rfl, ih.2⟩
    | toDisconnecting => exact ih
    | toIdle => exact ih
    | wake hpc ha => exact ⟨fun _ => ha, ih.2⟩
    | checkSend hpc h2 =>
      have hauth := ih.1 (by simp [hpc])
      refine ⟨fun _ => hauth, ?_⟩
      have h3 := ih.2
      simp [List.all_append, hauth, h2] at h3 ⊢
      exact h3
    | checkStop hpc h2 => exact ⟨fun _ => ih.1 (by simp [hpc]), ih.2⟩
    | sleepDone hpc => exact ⟨fun _ => ih.1 (by simp [hpc]), ih.2⟩

/-- `incr_box` appends the *new* cumulative per-room box profit (old
total plus this delta) to the running profit series. -/
theorem incr_box_records (b : StatsBuffer) (room uid c : Nat) (q : ℚ) (now : Nat) :
    (incr_box b room uid c q now).room_box_profit_records =
      pushTo b.room_box_profit_records room (lookupD b.room_box_profit room 0 + q) := by
  simp [incr_box, lookupD_bump_self]

/-! ## Claim theorems -/

/-- C5 witness: a concrete round-trip (operation 7, a 2-byte payload). -/
theorem c5_roundtrip_witness :
    (parsePacket zlOracle brOracle (0 + 2) (sendPacket 7 [104, 105])).frames =
      [⟨[104, 105].length + 16, 16, 1, 7, 1, [104, 105]⟩] ∧
    (parsePacket zlOracle brOracle (0 + 2) (sendPacket 7 [104, 105])).err = none :=
  c5_roundtrip zlOracle brOracle 0 7 [104, 105] (by decide) (by decide)

/-- C2 counterexample: a trailing frame whose declared total length (100)
exceeds the available bytes (20) is *not* an error — `_parse_packet`
silently processes it with the clamped 4-byte body (the claim asserts
packet decoding signals an error on such input). -/
theorem c2_counterexample :
    parsePacket zlOracle brOracle 3 truncatedFrame =
      ⟨[⟨100, 16, 1, 5, 1, [65, 66, 67, 68]⟩], [.message [65, 66, 67, 68]], none⟩ := by
  decide

/-- C2 amended: only a remainder shorter than the 16-byte header raises
(`struct.error`); a frame whose declared length overruns the buffer is
silently processed with the clamped body; and when packet parsing does
raise, the receive loop terminates — later queued segments are dropped —
instead of continuing. -/
theorem c2_amended :
    (∀ (zl br : List Nat → Option (List Nat)) (fuel b : Nat) (bs : List Nat),
      (b :: bs).length < 16 →
      (parsePacket zl br (fuel + 1) (b :: bs)).err = some .headerError) ∧
    (parsePacket zlOracle brOracle 3 truncatedFrame).err = none ∧
    (∀ (zl br : List Nat → Option (List Nat)) (fuel : Nat) (seg : List Nat)
      (rest : List (List Nat)) (e : PErr),
      (parsePacket zl br fuel seg).err = some e →
      receiveLoop zl br fuel (seg :: rest) =
        ((parsePacket zl br fuel seg).events, false)) :=
  ⟨fun zl br fuel b bs h => parsePacket_short_header zl br fuel b bs h,
   by decide,
   fun zl br fuel seg rest e h => receiveLoop_stops_on_error zl br fuel seg rest e h⟩

/-- C2 amended witness: a 3-byte buffer raises a header error, and a
queued second segment is dropped when the first segment raises. -/
theorem c2_amended_witness :
    (parsePacket zlOracle brOracle (0 + 1) [1, 2, 3]).err = some .headerError ∧
    receiveLoop zlOracle brOracle (0 + 1) ([1, 2, 3] :: [[0]]) =
      ((parsePacket zlOracle brOracle (0 + 1) [1, 2, 3]).events, false) :=
  ⟨c2_amended.1 zlOracle brOracle 0 1 [2, 3] (by decide),
   c2_amended.2.2 zlOracle brOracle (0 + 1) [1, 2, 3] [[0]] .headerError
     (c2_amended.1 zlOracle brOracle 0 1 [2, 3] (by decide))⟩

/-- C3 counterexample: an input nested five compression levels deep —
deeper than the claimed cap of 4 — is decoded all the way to the inner
message with no error, refuting that deeper nesting is treated as a
decode error. -/
theorem c3_counterexample :
    (parsePacket zlOracle brOracle 12 (nest 5)).events = [.message innerMsg] ∧
    (parsePacket zlOracle brOracle 12 (nest 5)).err = none := by
  decide

/-- C3 amended: `_parse_packet` imposes no small-constant recursion cap:
for *every* nesting depth `d`, given an execution budget of at least
`d + 2` (the Python recursion limit is ≈1000), the nested input is fully
decoded to the inner message with no error.  Termination is ensured only
by the budget, whose exhaustion is modelled as `PErr.budget` (a raised
`RecursionError`), not a per-frame decode error. -/
theorem c3_amended (d fuel : Nat) (hf : d + 2 ≤ fuel) :
    (parsePacket zlOracle brOracle fuel (nest d)).events = [.message innerMsg] ∧
    (parsePacket zlOracle brOracle fuel (nest d)).err = none :=
  parse_nest d fuel hf

/-- C3 amended witness: depth 7 with budget 20. -/
theorem c3_amended_witness :
    (parsePacket zlOracle brOracle 20 (nest 7)).events = [.message innerMsg] ∧
    (parsePacket zlOracle brOracle 20 (nest 7)).err = none :=
  c3_amended 7 20 (by decide)

/-- C6: from a fresh room (persisted status 0, no prior session), every
interleaving of two concurrent `LIVE` handler invocations ends with both
tasks finished and exactly one `create_session` call and one outbound
live-start notification — the duplicate is suppressed by the in-memory
flag checked before the lock, re-checked after acquiring it, and the
persisted status.  (Exhaustive check over all schedules.) -/
theorem c6_exactly_one_session_start :
    ((finalsFrom 12 initDup).all fun s =>
      decide (s.creates = 1 ∧ s.notifies = 1 ∧ s.pcA = .done ∧ s.pcB = .done)) = true
      ∧ finalsFrom 12 initDup ≠ [] := by
  decide

/-- C1: the code's `flush` commits the live buffer to the store and only
then clears it; an increment arriving between the commit and the clear
is silently discarded.  On the failing schedule two increments are
issued, yet after the flush the store holds 1 and the buffer 0 — one
count is lost.  Under the spec's swap-before-I/O discipline
(`runSwapOps`, modelled from the spec) the same schedule conserves both:
store 1 and (new) buffer 1. -/
theorem c1_flush_loses_concurrent_increment :
    incrCount lostSchedule = 2 ∧
    runFlushOps ⟨0, 0⟩ lostSchedule = ⟨0, 1⟩ ∧
    runSwapOps ⟨0, 0, 0⟩ swapSchedule = ⟨1, 0, 1⟩ := by
  decide

/-- C9: every heartbeat frame the heartbeat loop ever sends is sent with
the authentication signal already fired and the connection state equal
to Authenticated (2); in particular no heartbeat precedes the
connect-ack, and no heartbeat is sent after the state leaves
Authenticated (the loop stops at its next check). -/
theorem c9_heartbeat_gated_on_auth {s : HBState} (h : HBReach s) :
    (s.sendLog.all fun e => decide (e.1 = true ∧ e.2 = 2)) = true :=
  (hb_invariant h).2

/-- C9 witness: the run init → connect-ack → wake → send reaches a state
with one recorded send, and the theorem applies to it. -/
theorem c9_heartbeat_witness :
    ((({ pc := .sleeping, authSet := true, status := 2,
         sendLog := [(true, 2)] } : HBState).sendLog.all fun e =>
      decide (e.1 = true ∧ e.2 = 2)) = true) :=
  c9_heartbeat_gated_on_auth
    (HBReach.step
      (HBReach.step
        (HBReach.step HBReach.init (HBStep.authOk initHB))
        (HBStep.wake _ rfl rfl))
      (HBStep.checkSend _ rfl rfl))

/-- C4 counterexample: for the blind-box event with paid box price 500,
revealed unit price 800, quantity 1, the recorded box-profit delta is
0.3 — `(800/1000 * 1) - 500/1000` rounded to one decimal — not 3.0 as
the claim states. -/
theorem c4_counterexample :
    lookupD (handleGift emptyBuffer 1 (blindEvent 42) 0).room_box_profit 1 0 = 3 / 10 ∧
    ¬((3 : ℚ) / 10 = 3) := by
  have hd : boxProfitDelta (blindEvent 42) = 3 / 10 := by
    simp only [boxProfitDelta, blindEvent]
    norm_num [round1, round_eq]
  constructor
  · have h1 : handleGift emptyBuffer 1 (blindEvent 42) 0 =
        incr_box (incr_gift emptyBuffer 1 42 (giftProfit (blindEvent 42)) 0)
          1 42 1 (boxProfitDelta (blindEvent 42)) 0 := by
      norm_num [handleGift, blindEvent]
    rw [h1, hd]
    simp [incr_box, incr_gift, emptyBuffer, bump, lookupD]
  · norm_num

/-- C4 amended: the delta for that event is 0.3 (minor units divided by
1000, rounded to one decimal), and the running-total series appends the
new cumulative total `p + 0.3` — not the delta alone — whenever the
prior cumulative total `p` is nonzero. -/
theorem c4_amended (b : StatsBuffer) (room uid now : Nat) (p : ℚ)
    (hp : lookupD b.room_box_profit room 0 = p) (hnz : p ≠ 0) :
    boxProfitDelta (blindEvent uid) = 3 / 10 ∧
    lookupD (handleGift b room (blindEvent uid) now).room_box_profit_records room [] =
      lookupD b.room_box_profit_records room [] ++ [p + 3 / 10] ∧
    p + 3 / 10 ≠ 3 / 10 := by
  have hd : boxProfitDelta (blindEvent uid) = 3 / 10 := by
    simp only [boxProfitDelta, blindEvent]
    norm_num [round1, round_eq]
  refine ⟨hd, ?_, ?_⟩
  · have h1 : handleGift b room (blindEvent uid) now =
        incr_box (incr_gift b room uid (giftProfit (blindEvent uid)) now)
          room uid 1 (boxProfitDelta (blindEvent uid)) now := by
      norm_num [handleGift, blindEvent]
    rw [h1, hd, incr_box_records]
    have hbp : (incr_gift b room uid (giftProfit (blindEvent uid)) now).room_box_profit
        = b.room_box_profit := rfl
    have hbr : (incr_gift b room uid (giftProfit (blindEvent uid)) now).room_box_profit_records
        = b.room_box_profit_records := rfl
    rw [hbp, hbr, hp, lookupD_pushTo_self]
  · intro hc
    apply hnz
    linarith

/-- C4 amended witness: prior cumulative total 1/2 from an earlier box
event; the event appends 1/2 + 0.3. -/
theorem c4_amended_witness :
    boxProfitDelta (blindEvent 42) = 3 / 10 ∧
    lookupD (handleGift (incr_box emptyBuffer 1 7 2 (1 / 2) 5) 1 (blindEvent 42)
        99).room_box_profit_records 1 [] =
      lookupD (incr_box emptyBuffer 1 7 2 (1 / 2) 5).room_box_profit_records 1 [] ++
        [1 / 2 + 3 / 10] ∧
    (1 : ℚ) / 2 + 3 / 10 ≠ 3 / 10 :=
  c4_amended (incr_box emptyBuffer 1 7 2 (1 / 2) 5) 1 42 99 (1 / 2)
    (by simp [incr_box, emptyBuffer, bump, lookupD]) (by norm_num)

/-- C10: a gift event whose `total_coin` is 0 or whose `discount_price`
is 0 issues no gift increment — the room and per-user gift-profit maps
and the gift time series are untouched — while a present `blind_gift`
key still updates the blind-box counters (room box count grows by
`num`). -/
theorem c10_free_gift_no_gift_increment (b : StatsBuffer) (room : Nat) (e : GiftEvent)
    (now : Nat) (hfree : e.total_coin = 0 ∨ e.discount_price = 0) :
    (handleGift b room e now).room_gift_profit = b.room_gift_profit ∧
    (handleGift b room e now).user_gift_profit = b.user_gift_profit ∧
    (handleGift b room e now).room_gift_times = b.room_gift_times ∧
    (e.blind_gift = true →
      lookupD (handleGift b room e now).room_box_count room 0 =
        lookupD b.room_box_count room 0 + e.num) := by
  have hcond : ¬(e.total_coin ≠ 0 ∧ e.discount_price ≠ 0) := by tauto
  simp only [handleGift, if_neg hcond]
  cases hbg : e.blind_gift with
  | false => simp
  | true => simp [incr_box, lookupD_bump_self]

/-- C10 witness: a free blind-box reveal (`total_coin = 0`,
`discount_price = 0`, quantity 2). -/
theorem c10_witness :
    (handleGift emptyBuffer 1 ⟨3, 2, 0, 0, 0, true⟩ 8).room_gift_profit =
      emptyBuffer.room_gift_profit ∧
    (handleGift emptyBuffer 1 ⟨3, 2, 0, 0, 0, true⟩ 8).user_gift_profit =
      emptyBuffer.user_gift_profit ∧
    (handleGift emptyBuffer 1 ⟨3, 2, 0, 0, 0, true⟩ 8).room_gift_times =
      emptyBuffer.room_gift_times ∧
    ((⟨3, 2, 0, 0, 0, true⟩ : GiftEvent).blind_gift = true →
      lookupD (handleGift emptyBuffer 1 ⟨3, 2, 0, 0, 0, true⟩ 8).room_box_count 1 0 =
        lookupD emptyBuffer.room_box_count 1 0 + (⟨3, 2, 0, 0, 0, true⟩ : GiftEvent).num) :=
  c10_free_gift_no_gift_increment emptyBuffer 1 ⟨3, 2, 0, 0, 0, true⟩ 8 (Or.inl rfl)

/-- C7: given that the handler reaches the heuristic (not already live
in memory, persisted status not 1), the `LIVE` event is suppressed as a
reconnect echo — no `create_session`, no notification — exactly when the
previous session's end time is known (nonzero) and within 60 seconds of
now AND the last live-start notification time is known and within 60
seconds of now; and in the suppressed case the only effect is restoring
the persisted live-status to 1 (start time, push time and the stats
reset are untouched). -/
theorem c7_reconnect_echo_iff (st : RoomState) (now : Int) (lt ri : Option Int)
    (hlive : st.isLive = false) (hstatus : st.dbStatus ≠ 1) :
    (((handleLiveOn st now lt ri).2.creates = 0 ∧
      (handleLiveOn st now lt ri).2.notifies = 0) ↔
      (st.dbEndTime ≠ 0 ∧ now - st.dbEndTime ≤ 60 ∧
       ∃ p, st.lastPushTime = some p ∧ now - p ≤ 60)) ∧
    (isReconnectEcho st now = true →
      (handleLiveOn st now lt ri).2 = noFx ∧
      (handleLiveOn st now lt ri).1.dbStatus = 1 ∧
      (handleLiveOn st now lt ri).1.isLive = true ∧
      (handleLiveOn st now lt ri).1.dbStartTime = st.dbStartTime ∧
      (handleLiveOn st now lt ri).1.lastPushTime = st.lastPushTime ∧
      (handleLiveOn st now lt ri).2.resets = 0) := by
  have hiff := isReconnectEcho_iff st now
  by_cases hr : isReconnectEcho st now = true
  · have hres : handleLiveOn st now lt ri =
        ({ st with isLive := true, dbStatus := 1 }, noFx) := by
      simp only [handleLiveOn, hlive, Bool.false_eq_true, if_false, if_neg hstatus,
        show isReconnectEcho { st with isLive := true } now = true from hr, if_true]
    rw [hres]
    exact ⟨⟨fun _ => hiff.mp hr, fun _ => ⟨rfl, rfl⟩⟩,
           fun _ => ⟨rfl, rfl, rfl, rfl, rfl, rfl⟩⟩
  · have hrf : isReconnectEcho st now = false := by
      cases h2 : isReconnectEcho st now with
      | false => rfl
      | true => exact absurd h2 hr
    have hfx : (handleLiveOn st now lt ri).2 = ⟨1, 1, 1⟩ := by
      simp only [handleLiveOn, hlive, Bool.false_eq_true, if_false, if_neg hstatus,
        show isReconnectEcho { st with isLive := true } now = false from hrf]
    rw [hfx]
    constructor
    · constructor
      · intro hcontra
        exact absurd hcontra.1 (by simp)
      · intro hcond
        exact absurd (hiff.mpr hcond) hr
    · intro hcontra
      exact absurd hcontra hr

/-- C7 witness: a session that ended 10 seconds ago and a live-start
notification sent 10 seconds ago (now = 100) — the event is suppressed
and only the persisted status is restored. -/
theorem c7_witness :
    (((handleLiveOn ⟨false, 0, 50, 90, some 90⟩ 100 none none).2.creates = 0 ∧
      (handleLiveOn ⟨false, 0, 50, 90, some 90⟩ 100 none none).2.notifies = 0) ↔
      ((⟨false, 0, 50, 90, some 90⟩ : RoomState).dbEndTime ≠ 0 ∧
       (100 : Int) - (⟨false, 0, 50, 90, some 90⟩ : RoomState).dbEndTime ≤ 60 ∧
       ∃ p, (⟨false, 0, 50, 90, some 90⟩ : RoomState).lastPushTime = some p ∧
         (100 : Int) - p ≤ 60)) ∧
    (isReconnectEcho ⟨false, 0, 50, 90, some 90⟩ 100 = true →
      (handleLiveOn ⟨false, 0, 50, 90, some 90⟩ 100 none none).2 = noFx ∧
      (handleLiveOn ⟨false, 0, 50, 90, some 90⟩ 100 none none).1.dbStatus = 1 ∧
      (handleLiveOn ⟨false, 0, 50, 90, some 90⟩ 100 none none).1.isLive = true ∧
      (handleLiveOn ⟨false, 0, 50, 90, some 90⟩ 100 none none).1.dbStartTime =
        (⟨false, 0, 50, 90, some 90⟩ : RoomState).dbStartTime ∧
      (handleLiveOn ⟨false, 0, 50, 90, some 90⟩ 100 none none).1.lastPushTime =
        (⟨false, 0, 50, 90, some 90⟩ : RoomState).lastPushTime ∧
      (handleLiveOn ⟨false, 0, 50, 90, some 90⟩ 100 none none).2.resets = 0) :=
  c7_reconnect_echo_iff ⟨false, 0, 50, 90, some 90⟩ 100 none none rfl (by decide)

/-- C8 counterexample: one chat increment whose sender uid is 0 (the
handler passes uid 0 when the payload lacks one): after the flush the
room chat count is 1 = N, but the per-user counts sum to 0, not N. -/
theorem c8_counterexample :
    lookupD (flushBuffer emptyStore (runDanmus 1 [(0, "hi", 5)] emptyBuffer)
      9).room_danmu_count 1 0 = 1 ∧
    ¬(sumRoomPairs (flushBuffer emptyStore (runDanmus 1 [(0, "hi", 5)] emptyBuffer)
      9).user_danmu 1 = 1) := by
  constructor
  · rfl
  · decide

/-- C8 amended: for every sequence of chat increments for room `r`
issued to a fresh buffer and flushed into an empty store, the stored
room chat count equals the number N of increments, and the stored
per-user chat counts sum to the number of increments whose uid is
nonzero (an increment with uid 0 contributes to the room count only). -/
theorem c8_amended (r : Nat) (evs : List (Nat × String × Nat)) (now : Nat) :
    lookupD (flushBuffer emptyStore (runDanmus r evs emptyBuffer) now).room_danmu_count
      r 0 = evs.length ∧
    sumRoomPairs (flushBuffer emptyStore (runDanmus r evs emptyBuffer) now).user_danmu r =
      (evs.filter fun e => e.1 ≠ 0).length := by
  constructor
  · have hproj : (flushBuffer emptyStore (runDanmus r evs emptyBuffer) now).room_danmu_count
        = upsertFold 0 emptyStore.room_danmu_count (runDanmus r evs emptyBuffer).room_danmu_count := rfl
    rw [hproj, lookupD_upsertFold, runDanmus_room_count]
    simp [show emptyStore.room_danmu_count = ([] : List (Nat × Nat)) from rfl,
      show emptyBuffer.room_danmu_count = ([] : List (Nat × Nat)) from rfl,
      lookupD, sumKey]
  · have hproj : (flushBuffer emptyStore (runDanmus r evs emptyBuffer) now).user_danmu
        = upsertFold 0 emptyStore.user_danmu (runDanmus r evs emptyBuffer).user_danmu_count := rfl
    rw [hproj, sumRoomPairs_upsertFold, runDanmus_user_sum]
    simp [show emptyStore.user_danmu = ([] : List ((Nat × Nat) × Nat)) from rfl,
      show emptyBuffer.user_danmu_count = ([] : List ((Nat × Nat) × Nat)) from rfl,
      sumRoomPairs]

end Bilive
